import Mathlib

/-!
# Verification of the pick-and-place planning/execution orchestration

A shallow embedding of the `action_ws` repository:

* `pick_and_place/include/manipulability_measures.h` — the
  `ManipulabilityMeasures` value type (`MatrixXd`, `getVector`, `pass`).
* `pick_and_place/src/pick_and_place_node.cpp` — the `main` orchestrator:
  build a pose-goal `MotionPlanRequest`, call the planning pipeline under a
  scoped read lock on the planning scene, bail out on failure, otherwise
  visualize the trajectory and hand it to the trajectory-execution manager.
* `tacbot/src/plan_and_execute.cpp` — the second `main` orchestrator: build a
  joint-goal request, visualize goal/obstacles, plan, visualize the result;
  the execution block is guarded by a hard-coded `false` flag.

External collaborators (planning pipeline, controller backend) are modelled by
an environment record carrying their reported outcomes; each `main` is a pure
function from that environment to an exit code and a trace of events.
Components the specification places in the core but whose implementation is
not in the repository sources (the execution state machine, the
manipulability eigensolver contract) are modelled from the specification and
marked as such in their doc comments.
-/

namespace ActionWs

/-! ## Dynamic-size matrix (model of `Eigen::MatrixXd`)

Entries are modelled as rationals (ideal arithmetic for `double`); an access
outside the stored dimensions is undefined behaviour in Eigen and is modelled
as `none`. -/

structure MatrixXd where
  rows : Nat
  cols : Nat
  entry : Nat → Nat → ℚ

def MatrixXd.get (m : MatrixXd) (i j : Nat) : Option ℚ :=
  if i < m.rows ∧ j < m.cols then some (m.entry i j) else none

/-- `Eigen::MatrixXd` default-constructs to an empty 0×0 matrix. -/
def MatrixXd.empty : MatrixXd :=
  ⟨0, 0, fun _ _ => 0⟩

/-! ## `ManipulabilityMeasures` (manipulability_measures.h) -/

structure ManipulabilityMeasures where
  eigen_values : MatrixXd := MatrixXd.empty
  eigen_vectors : MatrixXd := MatrixXd.empty
  pass : Bool := false

/-- A default-constructed `ManipulabilityMeasures` (all members at their
default initializers). -/
def ManipulabilityMeasures.defaultConstructed : ManipulabilityMeasures := {}

/-- `getVector(i)` reads `eigen_vectors(0,i)`, `eigen_vectors(1,i)`,
`eigen_vectors(2,i)` and returns them as a 3-vector.  The member function
mutates nothing, which the embedding records by returning the receiver
unchanged; an out-of-bounds read yields `none`. -/
def ManipulabilityMeasures.getVector (m : ManipulabilityMeasures) (i : Nat) :
    Option (ℚ × ℚ × ℚ) × ManipulabilityMeasures :=
  match m.eigen_vectors.get 0 i, m.eigen_vectors.get 1 i, m.eigen_vectors.get 2 i with
  | some a, some b, some c => (some (a, b, c), m)
  | _, _, _ => (none, m)

/-! ## Message types (models of `trajectory_msgs` / `moveit_msgs`) -/

structure JointTrajectoryPoint where
  positions : List ℚ
  velocities : List ℚ
  accelerations : List ℚ
  effort : List ℚ
deriving DecidableEq

structure JointTrajectory where
  joint_names : List String
  points : List JointTrajectoryPoint
deriving DecidableEq

structure RobotTrajectory where
  joint_trajectory : JointTrajectory
deriving DecidableEq

structure Point3 where
  x : ℚ
  y : ℚ
  z : ℚ
deriving DecidableEq

structure Quat where
  w : ℚ
  x : ℚ
  y : ℚ
  z : ℚ
deriving DecidableEq

structure Pose where
  position : Point3
  orientation : Quat
deriving DecidableEq

structure PoseStamped where
  frame_id : String
  pose : Pose
deriving DecidableEq

structure PositionConstraint where
  link_name : String
  target : Point3
  tolerance : List ℚ
deriving DecidableEq

structure OrientationConstraint where
  link_name : String
  orientation : Quat
  tolerance : List ℚ
deriving DecidableEq

structure JointConstraint where
  joint_name : String
  position : ℚ
deriving DecidableEq

/-- Model of `moveit_msgs::Constraints`. -/
structure Constraints where
  joint_constraints : List JointConstraint := []
  position_constraints : List PositionConstraint := []
  orientation_constraints : List OrientationConstraint := []
deriving DecidableEq

/-- Model of `kinematic_constraints::constructGoalConstraints` for a pose goal:
one position constraint and one orientation constraint on the given link. -/
def constructGoalConstraints (link : String) (p : PoseStamped)
    (tolPos tolAngle : List ℚ) : Constraints :=
  { position_constraints := [⟨link, p.pose.position, tolPos⟩],
    orientation_constraints := [⟨link, p.pose.orientation, tolAngle⟩] }

/-- Model of `planning_interface::MotionPlanRequest`
(= `moveit_msgs::MotionPlanRequest`); defaults are the ROS message defaults
(empty strings and lists, numeric fields zero). -/
structure MotionPlanRequest where
  group_name : String := ""
  allowed_planning_time : ℚ := 0
  planner_id : String := ""
  goal_constraints : List Constraints := []
  max_velocity_scaling_factor : ℚ := 0
  max_acceleration_scaling_factor : ℚ := 0
deriving DecidableEq

/-- Model of `moveit_msgs::RobotState` (start state in the response). -/
structure RobotStateMsg where
  joint_names : List String := []
  positions : List ℚ := []
deriving DecidableEq

/-- `moveit_msgs::MoveItErrorCodes::SUCCESS`. -/
def SUCCESS : Int := 1

/-- Model of `planning_interface::MotionPlanResponse`: the planner-reported
error code together with the produced trajectory and start state. -/
structure MotionPlanResponse where
  error_code : Int
  trajectory : RobotTrajectory
  trajectory_start : RobotStateMsg
deriving DecidableEq

/-! ## Execution state machine

Modelled from the spec: §4.5 ExecutionCoordinator.  The implementation behind
`trajectory_execution_manager::TrajectoryExecutionManager` is not part of the
repository sources; the state machine
`pending → running → {succeeded, failed, preempted, timeout}` with rejection
of re-entrant calls is taken from the specification's contract. -/

inductive ExecutionStatus
  | pending
  | running
  | succeeded
  | failed
  | preempted
  | timeout
deriving DecidableEq

def ExecutionStatus.isTerminal : ExecutionStatus → Bool
  | .pending => false
  | .running => false
  | _ => true

/-- A terminal outcome reported by the controller backend. -/
inductive BackendOutcome
  | succeeded
  | failed
  | preempted
  | timeout
deriving DecidableEq

def BackendOutcome.toStatus : BackendOutcome → ExecutionStatus
  | .succeeded => .succeeded
  | .failed => .failed
  | .preempted => .preempted
  | .timeout => .timeout

inductive ExecError
  | ExecutionInProgress
deriving DecidableEq

/-- Modelled from the spec: the coordinator remembers the status of the
current/last execution; a fresh coordinator starts at `pending`. -/
structure ExecutionCoordinator where
  status : ExecutionStatus := .pending
deriving DecidableEq

/-- Modelled from the spec: `execute(trajectory)` rejects a re-entrant call
while an execution is `running` (leaving it untouched); otherwise it hands the
trajectory to the backend and drives `pending → running → terminal`, returning
the terminal status together with the observed status phases. -/
def ExecutionCoordinator.execute (c : ExecutionCoordinator) (o : BackendOutcome) :
    Except ExecError ExecutionStatus × ExecutionCoordinator × List ExecutionStatus :=
  if c.status = .running then
    (.error .ExecutionInProgress, c, [])
  else
    (.ok o.toStatus, { status := o.toStatus },
      [.pending, .running, o.toStatus])

/-- The single uncontended `executeAndWait` call made by the orchestrator:
extracts the status from `execute` (the rejection branch cannot fire from a
fresh coordinator). -/
def ExecutionCoordinator.executeAndWait (c : ExecutionCoordinator) (o : BackendOutcome) :
    ExecutionStatus × List ExecutionStatus :=
  match c.execute o with
  | (.ok s, _, phases) => (s, phases)
  | (.error _, _, phases) => (c.status, phases)

/-! ## Observable events of the orchestrators

Each `main` is embedded as a pure function from an environment (the outcomes
reported by the external collaborators) to an exit code and the ordered trace
of observable actions it performs. -/

inductive Event
  | lockAcquire
  | generatePlan (req : MotionPlanRequest)
  | lockRelease
  | logError (msg : String)
  | deleteAllMarkers
  | publishDisplayTrajectory (start : RobotStateMsg) (trajs : List RobotTrajectory)
  | publishTrajectoryLine (traj : RobotTrajectory)
  | vizTrigger
  | queryActiveControllers (names : List String)
  | queryKnownControllers (names : List String)
  | pushTrajectory (traj : RobotTrajectory)
  | executeAndWait (phases : List ExecutionStatus) (final : ExecutionStatus)
  | logStatus (final : ExecutionStatus)
  | promptInput
  | vizGoalState (names : List String) (pos : List ℚ)
  | vizObstacles (pos : List Point3)
  | vizTrajectory (resp : MotionPlanResponse) (label : String)
  | createPlanningContext (req : MotionPlanRequest)
  | changePlanner
  | moveToDefaultPose
  | followJointVelocities
deriving DecidableEq

/-- Events directed at the visualization sink. -/
def Event.isVisualization : Event → Bool
  | .deleteAllMarkers => true
  | .publishDisplayTrajectory _ _ => true
  | .publishTrajectoryLine _ => true
  | .vizTrigger => true
  | .vizGoalState _ _ => true
  | .vizObstacles _ => true
  | .vizTrajectory _ _ => true
  | _ => false

/-- Events directed at the execution subsystem / controller backend. -/
def Event.isExecution : Event → Bool
  | .pushTrajectory _ => true
  | .executeAndWait _ _ => true
  | .moveToDefaultPose => true
  | .followJointVelocities => true
  | _ => false

/-- The suffix of a trace strictly after its (first) planner invocation. -/
def eventsAfterPlan : List Event → List Event
  | [] => []
  | .generatePlan _ :: es => es
  | _ :: es => eventsAfterPlan es

/-- The requests passed to the planner, in trace order. -/
def planCalls : List Event → List MotionPlanRequest
  | [] => []
  | .generatePlan r :: es => r :: planCalls es
  | _ :: es => planCalls es

/-- Lock-discipline checker: starting from read-lock depth `d`, the trace is
well disciplined when the planner is invoked at depth exactly 1, every other
non-lock event happens with the lock free, releases match a held lock, and
the lock is free when the trace ends. -/
def lockDisciplineOk : Int → List Event → Bool
  | d, [] => d == 0
  | d, .lockAcquire :: es => lockDisciplineOk (d + 1) es
  | d, .lockRelease :: es => d == 1 && lockDisciplineOk (d - 1) es
  | d, .generatePlan _ :: es => d == 1 && lockDisciplineOk d es
  | d, _ :: es => d == 0 && lockDisciplineOk d es

/-- Erase the payload of the controller-list query events (used to state that
nothing but the logged observation depends on the queried lists). -/
def Event.scrubQuery : Event → Event
  | .queryActiveControllers _ => .queryActiveControllers []
  | .queryKnownControllers _ => .queryKnownControllers []
  | e => e

/-! ## `pick_and_place_node.cpp` orchestrator -/

/-- Collaborator outcomes consumed by `pick_and_place_node`'s `main`. -/
structure PnpEnv where
  plannerCode : Int
  plannerTrajectory : RobotTrajectory
  plannerStart : RobotStateMsg
  activeControllers : List String
  knownControllers : List String
  backendOutcome : BackendOutcome
deriving DecidableEq

/-- The pose goal of `pick_and_place_node.cpp`: position (0.5, 0, 0.75) in
`panda_link0`, identity orientation. -/
def pandaPose : PoseStamped :=
  { frame_id := "panda_link0",
    pose := { position := ⟨1/2, 0, 3/4⟩, orientation := ⟨1, 0, 0, 0⟩ } }

/-- `std::vector<double> tolerance_pose(3, 0.01)`. -/
def tolerance_pose : List ℚ := [1/100, 1/100, 1/100]

/-- `std::vector<double> tolerance_angle(3, 0.01)`. -/
def tolerance_angle : List ℚ := [1/100, 1/100, 1/100]

def pandaLink8 : String := "panda_link8"

/-- The `MotionPlanRequest` built by `pick_and_place_node.cpp` (lines
218–225): group name, 5 s time budget, planner id, one pose-goal constraint.
The velocity/acceleration scaling factors are never assigned and stay at the
message default `0`. -/
def pnpRequest : MotionPlanRequest :=
  { group_name := "panda_arm",
    allowed_planning_time := 5,
    planner_id := "panda_arm[EST]",
    goal_constraints :=
      [constructGoalConstraints pandaLink8 pandaPose tolerance_pose tolerance_angle] }

/-- `planning_pipeline->generatePlan(lscene, req, res)`: the external planner
fills the response with its reported code and trajectory. -/
def pnpGeneratePlan (env : PnpEnv) (_req : MotionPlanRequest) : MotionPlanResponse :=
  { error_code := env.plannerCode,
    trajectory := env.plannerTrajectory,
    trajectory_start := env.plannerStart }

/-- `printControllers`: queries the backend's active and known controller
lists and logs them; it performs no other action. -/
def printControllers (active known : List String) : List Event :=
  [.queryActiveControllers active, .queryKnownControllers known]

def pnpFailureMsg : String := "Could not compute plan successfully"

/-- The core of `pick_and_place_node.cpp`'s `main` (from the request build at
line 218 to the end): plan under a scoped read lock, return 0 on planner
failure, otherwise visualize the trajectory, query the controllers, push the
trajectory and wait for a terminal execution status. -/
def pickAndPlaceMain (env : PnpEnv) : Int × List Event :=
  let req := pnpRequest
  let res := pnpGeneratePlan env req
  let planEvents : List Event := [.lockAcquire, .generatePlan req, .lockRelease]
  if res.error_code ≠ SUCCESS then
    (0, planEvents ++ [.logError pnpFailureMsg])
  else
    let execRun := ExecutionCoordinator.executeAndWait {} env.backendOutcome
    (0, planEvents ++
      [.deleteAllMarkers,
       .publishDisplayTrajectory res.trajectory_start [res.trajectory],
       .publishTrajectoryLine res.trajectory,
       .vizTrigger] ++
      printControllers env.activeControllers env.knownControllers ++
      [.pushTrajectory res.trajectory,
       .executeAndWait execRun.2 execRun.1,
       .logStatus execRun.1,
       .promptInput])

/-! ## `plan_and_execute.cpp` orchestrator -/

/-- Collaborator outcomes and configuration consumed by
`plan_and_execute.cpp`'s `main` (the `tacbot` planner/visualizer classes are
not part of the repository sources; their getters are environment inputs). -/
structure TacbotEnv where
  jointGoal : Constraints
  jointNames : List String
  jointGoalPos : List ℚ
  obstaclePos : List Point3
  promptResult : Bool
  groupName : String
  plannerId : String
  plannerCode : Int
  plannerTrajectory : RobotTrajectory
  plannerStart : RobotStateMsg
  rawResponse : MotionPlanResponse
deriving DecidableEq

/-- The `MotionPlanRequest` built by `plan_and_execute.cpp`: joint goal pushed
at line 40, group/time/planner id and both scaling factors set at lines
53–57. -/
def tacbotRequest (env : TacbotEnv) : MotionPlanRequest :=
  { group_name := env.groupName,
    allowed_planning_time := 10,
    planner_id := env.plannerId,
    goal_constraints := [env.jointGoal],
    max_velocity_scaling_factor := 1/2,
    max_acceleration_scaling_factor := 1/2 }

/-- `planner->generatePlan(res)`. -/
def tacbotGeneratePlan (env : TacbotEnv) : MotionPlanResponse :=
  { error_code := env.plannerCode,
    trajectory := env.plannerTrajectory,
    trajectory_start := env.plannerStart }

def tacbotFailureMsg (code : Int) : String :=
  "Could not compute plan successfully. Error code: " ++ toString code

def plannedPathLabel : String := "planned_path"

def rawPathLabel : String := "raw_path"

/-- The core of `plan_and_execute.cpp`'s `main`: visualize goal and obstacles,
prompt (abort on decline), build the request, plan, return 1 with the
planner's error code on failure, otherwise visualize the planned and raw
trajectories.  The execution block is guarded by the hard-coded
`bool execute_trajectory = false;` (lines 85–99) and never runs. -/
def tacbotMain (env : TacbotEnv) : Int × List Event :=
  let preGoal : List Event :=
    [.vizGoalState env.jointNames env.jointGoalPos,
     .vizObstacles env.obstaclePos,
     .promptInput]
  if env.promptResult = false then
    (0, preGoal)
  else
    let req := tacbotRequest env
    let res := tacbotGeneratePlan env
    let planEvents := preGoal ++
      [.createPlanningContext req, .changePlanner, .generatePlan req]
    if res.error_code ≠ SUCCESS then
      (1, planEvents ++ [.logError (tacbotFailureMsg res.error_code)])
    else
      let execute_trajectory := false
      (0, planEvents ++
        [.vizTrajectory res plannedPathLabel,
         .vizTrajectory env.rawResponse rawPathLabel,
         .promptInput] ++
        (if execute_trajectory = true then
          [.moveToDefaultPose, .followJointVelocities]
        else []))

/-! ## Manipulability analyzer contract

The `ManipulabilityAnalyzer`'s `evaluate` (the eigensolver invocation filling
`ManipulabilityMeasures`) is not part of the repository sources; only the
result type is.  The contract below is modelled from the spec (§4.2): the
solver returns eigenvalues in ascending order with unit-norm eigenvector
columns of an orthogonal matrix reconstructing the input. -/

/-- Modelled from the spec: the default pass policy compares the smallest
eigenvalue against the caller-supplied threshold (`pass` fails when the
smallest eigenvalue is below the threshold). -/
def passPolicy (lam : Fin 3 → ℚ) (threshold : ℚ) : Bool :=
  decide (threshold ≤ min (lam 0) (min (lam 1) (lam 2)))

/-- Modelled from the spec: a valid output of `evaluate` on the 3×3
translational manipulability matrix `M = Jv·Jvᵗ` — exactly 3 eigenvalues in
ascending order (index 0 most constrained), nonnegative, with unit-norm
eigenvector columns aligned to their eigenvalues, reconstructing `M` as
`V·diag(λ)·Vᵗ` (exact equality in ideal real arithmetic stands in for the
floating-point tolerance). -/
structure EigenDecomp (M : Matrix (Fin 3) (Fin 3) ℝ) where
  lam : Fin 3 → ℝ
  V : Matrix (Fin 3) (Fin 3) ℝ
  ascending : lam 0 ≤ lam 1 ∧ lam 1 ≤ lam 2
  nonneg : ∀ i, 0 ≤ lam i
  unitNorm : ∀ j, (∑ i, V i j ^ 2) = 1
  aligned : ∀ j, M.mulVec (fun i => V i j) = lam j • (fun i => V i j)
  recon : V * Matrix.diagonal lam * V.transpose = M

/-! ## The claims' formalized statements and witness inputs -/

/-- The claim of C8 as stated: the built request carries a group name, goal
constraints, a planner identifier, a positive time budget and
velocity/acceleration scaling factors (a scaling factor is carried when it is
set above the unset message default `0`). -/
def requestFullySpecified (r : MotionPlanRequest) : Prop :=
  r.group_name ≠ "" ∧ r.goal_constraints ≠ [] ∧ r.planner_id ≠ "" ∧
  0 < r.allowed_planning_time ∧
  0 < r.max_velocity_scaling_factor ∧ 0 < r.max_acceleration_scaling_factor

/-- The expected trace of `pick_and_place_node` when planning succeeds:
visualization first, then the controller query, then push and execution to a
terminal status. -/
def pnpSuccessTrace (env : PnpEnv) : List Event :=
  [.lockAcquire, .generatePlan pnpRequest, .lockRelease,
   .deleteAllMarkers,
   .publishDisplayTrajectory env.plannerStart [env.plannerTrajectory],
   .publishTrajectoryLine env.plannerTrajectory,
   .vizTrigger,
   .queryActiveControllers env.activeControllers,
   .queryKnownControllers env.knownControllers,
   .pushTrajectory env.plannerTrajectory,
   .executeAndWait [.pending, .running, env.backendOutcome.toStatus]
     env.backendOutcome.toStatus,
   .logStatus env.backendOutcome.toStatus,
   .promptInput]

/-- The expected trace of `plan_and_execute` when planning succeeds: goal and
trajectory visualization only — no execution events (the execution block is
statically disabled). -/
def tacbotSuccessTrace (env : TacbotEnv) : List Event :=
  [.vizGoalState env.jointNames env.jointGoalPos,
   .vizObstacles env.obstaclePos,
   .promptInput,
   .createPlanningContext (tacbotRequest env),
   .changePlanner,
   .generatePlan (tacbotRequest env),
   .vizTrajectory (tacbotGeneratePlan env) plannedPathLabel,
   .vizTrajectory env.rawResponse rawPathLabel,
   .promptInput]

/-- An empty trajectory (placeholder payload for witness environments). -/
def emptyTrajectory : RobotTrajectory := ⟨⟨[], []⟩⟩

/-- A `pick_and_place_node` environment whose planner reports failure
(error code 0 ≠ SUCCESS). -/
def pnpFailEnv : PnpEnv :=
  { plannerCode := 0,
    plannerTrajectory := emptyTrajectory,
    plannerStart := {},
    activeControllers := [],
    knownControllers := [],
    backendOutcome := .succeeded }

/-- A `pick_and_place_node` environment whose planner succeeds and whose
backend reports success. -/
def pnpSuccessEnv : PnpEnv :=
  { plannerCode := SUCCESS,
    plannerTrajectory := emptyTrajectory,
    plannerStart := {},
    activeControllers := [],
    knownControllers := [],
    backendOutcome := .succeeded }

/-- A `plan_and_execute` environment whose prompt is accepted and whose
planner succeeds. -/
def tacbotSuccessEnv : TacbotEnv :=
  { jointGoal := {},
    jointNames := [],
    jointGoalPos := [],
    obstaclePos := [],
    promptResult := true,
    groupName := "panda_arm",
    plannerId := "panda_arm[EST]",
    plannerCode := SUCCESS,
    plannerTrajectory := emptyTrajectory,
    plannerStart := {},
    rawResponse := ⟨SUCCESS, emptyTrajectory, {}⟩ }

/-- A `plan_and_execute` environment whose prompt is accepted and whose
planner reports failure. -/
def tacbotFailEnv : TacbotEnv :=
  { tacbotSuccessEnv with plannerCode := 0 }

/-- A concrete `ManipulabilityMeasures` value with a 3×3 eigenvector matrix
(entry at row `i`, column `j` is `i + j`). -/
def witnessMeasures : ManipulabilityMeasures :=
  { eigen_values := ⟨3, 1, fun i _ => (i : ℚ)⟩,
    eigen_vectors := ⟨3, 3, fun i j => (i : ℚ) + (j : ℚ)⟩,
    pass := true }

/-! # Theorems -/

/-- **C6.** For every `ManipulabilityMeasures` value whose `eigen_vectors`
matrix has at least 3 rows and more than `i` columns, `getVector i` for `i`
in 0..2 returns exactly the `i`-th column of `eigen_vectors` — the entries at
rows 0, 1, 2 of column `i` in that order — and modifies nothing (the
structure is returned unchanged). -/
theorem getVector_returns_column (m : ManipulabilityMeasures) (i : Nat)
    (_hi : i ≤ 2) (hr : 3 ≤ m.eigen_vectors.rows) (hc : i < m.eigen_vectors.cols) :
    m.getVector i =
      (some (m.eigen_vectors.entry 0 i, m.eigen_vectors.entry 1 i,
             m.eigen_vectors.entry 2 i), m) := by
  have h0 : (0 : Nat) < m.eigen_vectors.rows ∧ i < m.eigen_vectors.cols := ⟨by omega, hc⟩
  have h1 : (1 : Nat) < m.eigen_vectors.rows ∧ i < m.eigen_vectors.cols := ⟨by omega, hc⟩
  have h2 : (2 : Nat) < m.eigen_vectors.rows ∧ i < m.eigen_vectors.cols := ⟨by omega, hc⟩
  simp [ManipulabilityMeasures.getVector, MatrixXd.get, h0, h1, h2]

theorem getVector_returns_column_witness :
    (1 : Nat) ≤ 2 ∧ 3 ≤ witnessMeasures.eigen_vectors.rows ∧
    1 < witnessMeasures.eigen_vectors.cols ∧
    witnessMeasures.getVector 1 = (some (1, 2, 3), witnessMeasures) := by
  refine ⟨by decide, by decide, by decide, ?_⟩
  have h := getVector_returns_column witnessMeasures 1 (by decide) (by decide) (by decide)
  rw [h]
  norm_num [witnessMeasures]

/-- **C7.** `getVector` performs no bounds checking: its result is defined
(`some`) exactly when `eigen_vectors` has at least 3 rows and at least `i+1`
columns; a default-constructed `ManipulabilityMeasures` has empty 0×0
`eigen_values` and `eigen_vectors` matrices and a `false` `pass` flag, so on
it every `getVector` call indexes out of bounds. -/
theorem getVector_no_bounds_check :
    (∀ (m : ManipulabilityMeasures) (i : Nat),
        ((m.getVector i).1.isSome = true ↔
          3 ≤ m.eigen_vectors.rows ∧ i + 1 ≤ m.eigen_vectors.cols)) ∧
    ManipulabilityMeasures.defaultConstructed.pass = false ∧
    ManipulabilityMeasures.defaultConstructed.eigen_values.rows = 0 ∧
    ManipulabilityMeasures.defaultConstructed.eigen_values.cols = 0 ∧
    ManipulabilityMeasures.defaultConstructed.eigen_vectors.rows = 0 ∧
    ManipulabilityMeasures.defaultConstructed.eigen_vectors.cols = 0 ∧
    ∀ i, (ManipulabilityMeasures.defaultConstructed.getVector i).1 = none := by
  refine ⟨?_, rfl, rfl, rfl, rfl, rfl, ?_⟩
  · intro m i
    constructor
    · intro hs
      by_contra hb
      by_cases hc : i < m.eigen_vectors.cols
      · have hr : ¬ 2 < m.eigen_vectors.rows := by omega
        by_cases h0 : 0 < m.eigen_vectors.rows
        · by_cases h1 : 1 < m.eigen_vectors.rows
          · simp [ManipulabilityMeasures.getVector, MatrixXd.get, h0, h1, hr, hc] at hs
          · simp [ManipulabilityMeasures.getVector, MatrixXd.get, h0, h1, hc] at hs
        · simp [ManipulabilityMeasures.getVector, MatrixXd.get, h0, hc] at hs
      · simp [ManipulabilityMeasures.getVector, MatrixXd.get, hc] at hs
    · rintro ⟨hr, hc⟩
      have h0 : 0 < m.eigen_vectors.rows ∧ i < m.eigen_vectors.cols := ⟨by omega, by omega⟩
      have h1 : 1 < m.eigen_vectors.rows ∧ i < m.eigen_vectors.cols := ⟨by omega, by omega⟩
      have h2 : 2 < m.eigen_vectors.rows ∧ i < m.eigen_vectors.cols := ⟨by omega, by omega⟩
      simp [ManipulabilityMeasures.getVector, MatrixXd.get, h0, h1, h2]
  · intro i
    simp [ManipulabilityMeasures.getVector, ManipulabilityMeasures.defaultConstructed,
      MatrixXd.get, MatrixXd.empty]

/-- **C9.** A second `execute` call issued while the first execution is
`running` is rejected with `ExecutionInProgress` and leaves the coordinator
(and thus the running execution) unchanged; an `execute` call on a
non-running coordinator is accepted, yields the backend's terminal status,
and a subsequent `execute` call after that terminal state is accepted as
well. -/
theorem execute_rejects_reentrant_calls (c : ExecutionCoordinator)
    (o o' : BackendOutcome) :
    (c.status = .running →
      c.execute o = (.error .ExecutionInProgress, c, [])) ∧
    (c.status ≠ .running →
      (c.execute o).1 = .ok o.toStatus ∧
      (o.toStatus).isTerminal = true ∧
      ((c.execute o).2.1.execute o').1 = .ok o'.toStatus) := by
  constructor
  · intro h
    simp [ExecutionCoordinator.execute, h]
  · intro h
    have h1 : c.execute o =
        (.ok o.toStatus, { status := o.toStatus }, [.pending, .running, o.toStatus]) := by
      simp [ExecutionCoordinator.execute, h]
    have h2 : ({ status := o.toStatus } : ExecutionCoordinator).status ≠ .running := by
      cases o <;> simp [BackendOutcome.toStatus]
    refine ⟨by rw [h1], by cases o <;> rfl, ?_⟩
    rw [h1]
    simp [ExecutionCoordinator.execute, h2]

theorem execute_rejects_reentrant_calls_witness :
    ((⟨.running⟩ : ExecutionCoordinator).execute .succeeded =
      (.error .ExecutionInProgress, ⟨.running⟩, [])) ∧
    (((⟨.pending⟩ : ExecutionCoordinator).execute .failed).1 = .ok .failed ∧
      ExecutionStatus.isTerminal .failed = true ∧
      (((⟨.pending⟩ : ExecutionCoordinator).execute .failed).2.1.execute
        .succeeded).1 = .ok .succeeded) :=
  ⟨(execute_rejects_reentrant_calls ⟨.running⟩ .succeeded .succeeded).1 rfl,
   (execute_rejects_reentrant_calls ⟨.pending⟩ .failed .succeeded).2 (by decide)⟩

/-- **C1.** The `pick_and_place_node` orchestrator holds the planning-scene
read lock only for the duration of the planner invocation: on every exit path
(planner failure included) the trace is lock-disciplined — the planner call
happens at lock depth exactly 1, every visualization/execution event happens
with the lock free, and the lock is free at program exit; in particular,
after a failed `plan` call the lock can immediately be acquired again (the
trace extended by a fresh acquire/plan/release block is still
disciplined). -/
theorem plan_lock_discipline (env : PnpEnv) :
    lockDisciplineOk 0 (pickAndPlaceMain env).2 = true ∧
    (env.plannerCode ≠ SUCCESS →
      lockDisciplineOk 0 ((pickAndPlaceMain env).2 ++
        [.lockAcquire, .generatePlan pnpRequest, .lockRelease]) = true) := by
  constructor
  · by_cases h : env.plannerCode ≠ SUCCESS <;>
      simp [pickAndPlaceMain, pnpGeneratePlan, printControllers, h, lockDisciplineOk]
  · intro h
    simp [pickAndPlaceMain, pnpGeneratePlan, printControllers, h, lockDisciplineOk]

theorem plan_lock_discipline_witness :
    lockDisciplineOk 0 (pickAndPlaceMain pnpFailEnv).2 = true ∧
    (pnpFailEnv.plannerCode ≠ SUCCESS ∧
      lockDisciplineOk 0 ((pickAndPlaceMain pnpFailEnv).2 ++
        [.lockAcquire, .generatePlan pnpRequest, .lockRelease]) = true) :=
  ⟨(plan_lock_discipline pnpFailEnv).1,
   by decide, (plan_lock_discipline pnpFailEnv).2 (by decide)⟩

/-- **C2.** If the planner reports a non-success status code, each
orchestrator keeps the planner-reported reason code in the response value,
performs no visualization and no execution after the planner call, and
returns a normal exit code (0 for `pick_and_place_node`, 1 for
`plan_and_execute`) instead of raising an unrecoverable fault. -/
theorem planning_failure_is_value (env : PnpEnv) (env' : TacbotEnv)
    (h : env.plannerCode ≠ SUCCESS) (hp : env'.promptResult = true)
    (h' : env'.plannerCode ≠ SUCCESS) :
    (pnpGeneratePlan env pnpRequest).error_code = env.plannerCode ∧
    pickAndPlaceMain env =
      (0, [.lockAcquire, .generatePlan pnpRequest, .lockRelease,
           .logError pnpFailureMsg]) ∧
    ((eventsAfterPlan (pickAndPlaceMain env).2).all
      (fun e => !e.isVisualization && !e.isExecution)) = true ∧
    (tacbotGeneratePlan env').error_code = env'.plannerCode ∧
    tacbotMain env' =
      (1, [.vizGoalState env'.jointNames env'.jointGoalPos,
           .vizObstacles env'.obstaclePos, .promptInput,
           .createPlanningContext (tacbotRequest env'), .changePlanner,
           .generatePlan (tacbotRequest env'),
           .logError (tacbotFailureMsg env'.plannerCode)]) ∧
    ((eventsAfterPlan (tacbotMain env').2).all
      (fun e => !e.isVisualization && !e.isExecution)) = true := by
  have hpnp : pickAndPlaceMain env =
      (0, [.lockAcquire, .generatePlan pnpRequest, .lockRelease,
           .logError pnpFailureMsg]) := by
    simp [pickAndPlaceMain, pnpGeneratePlan, h]
  have htac : tacbotMain env' =
      (1, [.vizGoalState env'.jointNames env'.jointGoalPos,
           .vizObstacles env'.obstaclePos, .promptInput,
           .createPlanningContext (tacbotRequest env'), .changePlanner,
           .generatePlan (tacbotRequest env'),
           .logError (tacbotFailureMsg env'.plannerCode)]) := by
    simp [tacbotMain, tacbotGeneratePlan, tacbotFailureMsg, hp, h']
  refine ⟨rfl, hpnp, ?_, rfl, htac, ?_⟩
  · rw [hpnp]
    rfl
  · rw [htac]
    rfl

theorem planning_failure_is_value_witness :
    (pnpFailEnv.plannerCode ≠ SUCCESS ∧ tacbotFailEnv.promptResult = true ∧
      tacbotFailEnv.plannerCode ≠ SUCCESS) ∧
    pickAndPlaceMain pnpFailEnv =
      (0, [.lockAcquire, .generatePlan pnpRequest, .lockRelease,
           .logError pnpFailureMsg]) ∧
    tacbotMain tacbotFailEnv =
      (1, [.vizGoalState tacbotFailEnv.jointNames tacbotFailEnv.jointGoalPos,
           .vizObstacles tacbotFailEnv.obstaclePos, .promptInput,
           .createPlanningContext (tacbotRequest tacbotFailEnv), .changePlanner,
           .generatePlan (tacbotRequest tacbotFailEnv),
           .logError (tacbotFailureMsg tacbotFailEnv.plannerCode)]) :=
  ⟨⟨by decide, rfl, by decide⟩,
   (planning_failure_is_value pnpFailEnv tacbotFailEnv (by decide) rfl (by decide)).2.1,
   (planning_failure_is_value pnpFailEnv tacbotFailEnv (by decide) rfl (by decide)).2.2.2.2.1⟩

/-- **C3 counterexample.** The claim "for every run in which planning
succeeds, the trajectory is published to the visualization sink *and then
handed to the execution coordinator, which pushes it to the controller
backend and drives it to a terminal status*" is false for the
`plan_and_execute` orchestrator: in a run whose planner succeeds, the trace
contains visualization events but not a single execution event — the
execution block is statically disabled by `bool execute_trajectory =
false;`. -/
theorem tacbot_success_skips_execution :
    tacbotSuccessEnv.plannerCode = SUCCESS ∧
    ((tacbotMain tacbotSuccessEnv).2.any (fun e => e.isVisualization)) = true ∧
    ((tacbotMain tacbotSuccessEnv).2.any (fun e => e.isExecution)) = false := by
  refine ⟨rfl, ?_, ?_⟩ <;> decide

/-- **C3 amended.** In the `pick_and_place_node` orchestrator, every run in
which planning succeeds publishes the trajectory to the visualization sink and
then hands it to the execution coordinator, which pushes it to the controller
backend and drives it `pending → running → terminal` before the program
finishes; the `plan_and_execute` orchestrator visualizes the planned and raw
trajectories but performs no execution, its execution hand-off being disabled
by a hard-coded `false` flag. -/
theorem success_pipeline_traces (env : PnpEnv) (env' : TacbotEnv)
    (h : env.plannerCode = SUCCESS) (hp : env'.promptResult = true)
    (h' : env'.plannerCode = SUCCESS) :
    (pickAndPlaceMain env).2 = pnpSuccessTrace env ∧
    (env.backendOutcome.toStatus).isTerminal = true ∧
    (tacbotMain env').2 = tacbotSuccessTrace env' ∧
    ((tacbotMain env').2.all (fun e => !e.isExecution)) = true := by
  have hpnp : (pickAndPlaceMain env).2 = pnpSuccessTrace env := by
    simp [pickAndPlaceMain, pnpGeneratePlan, h, pnpSuccessTrace, printControllers,
      ExecutionCoordinator.executeAndWait, ExecutionCoordinator.execute]
  have htac : (tacbotMain env').2 = tacbotSuccessTrace env' := by
    simp [tacbotMain, tacbotGeneratePlan, hp, h', tacbotSuccessTrace]
  refine ⟨hpnp, by cases env.backendOutcome <;> rfl, htac, ?_⟩
  rw [htac]
  rfl

theorem success_pipeline_traces_witness :
    (pnpSuccessEnv.plannerCode = SUCCESS ∧ tacbotSuccessEnv.promptResult = true ∧
      tacbotSuccessEnv.plannerCode = SUCCESS) ∧
    (pickAndPlaceMain pnpSuccessEnv).2 = pnpSuccessTrace pnpSuccessEnv ∧
    (tacbotMain tacbotSuccessEnv).2 = tacbotSuccessTrace tacbotSuccessEnv :=
  ⟨⟨rfl, rfl, rfl⟩,
   (success_pipeline_traces pnpSuccessEnv tacbotSuccessEnv rfl rfl rfl).1,
   (success_pipeline_traces pnpSuccessEnv tacbotSuccessEnv rfl rfl rfl).2.2.1⟩

/-- **C8 counterexample.** The claim that *every* built `MotionPlanRequest`
carries velocity/acceleration scaling factors is false for
`pick_and_place_node`: its request never assigns them, leaving them at the
ROS message default `0` (MoveIt's "unset" sentinel), so the request is not
fully specified in the claimed sense. -/
theorem pnp_request_scaling_unset :
    pnpRequest.max_velocity_scaling_factor = 0 ∧
    pnpRequest.max_acceleration_scaling_factor = 0 ∧
    ¬ requestFullySpecified pnpRequest := by
  refine ⟨rfl, rfl, fun h => ?_⟩
  have hv := h.2.2.2.2.1
  simp [pnpRequest] at hv

/-- **C8 amended.** Each orchestrator builds exactly one `MotionPlanRequest`
per planning attempt and passes it, fully built, to the single planner
invocation; the request carries a (nonempty) group name, nonempty goal
constraints, a (nonempty) planner identifier and a positive time budget.  The
`plan_and_execute` request additionally carries positive
velocity/acceleration scaling factors (0.5), while the `pick_and_place_node`
request leaves both scaling factors at the message default `0`. -/
theorem request_built_once_before_plan (env : PnpEnv) (env' : TacbotEnv)
    (hg : env'.groupName ≠ "") (hpid : env'.plannerId ≠ "")
    (hp : env'.promptResult = true) :
    planCalls (pickAndPlaceMain env).2 = [pnpRequest] ∧
    pnpRequest.group_name ≠ "" ∧ pnpRequest.goal_constraints ≠ [] ∧
    pnpRequest.planner_id ≠ "" ∧ 0 < pnpRequest.allowed_planning_time ∧
    pnpRequest.max_velocity_scaling_factor = 0 ∧
    pnpRequest.max_acceleration_scaling_factor = 0 ∧
    planCalls (tacbotMain env').2 = [tacbotRequest env'] ∧
    requestFullySpecified (tacbotRequest env') := by
  have hpnp : planCalls (pickAndPlaceMain env).2 = [pnpRequest] := by
    by_cases h : env.plannerCode ≠ SUCCESS <;>
      simp [pickAndPlaceMain, pnpGeneratePlan, printControllers, h, planCalls]
  have htac : planCalls (tacbotMain env').2 = [tacbotRequest env'] := by
    by_cases h : env'.plannerCode ≠ SUCCESS <;>
      simp [tacbotMain, tacbotGeneratePlan, hp, h, planCalls]
  refine ⟨hpnp, by decide, by decide, by decide, by decide, rfl, rfl, htac,
    ?_, ?_, ?_, ?_, ?_, ?_⟩
  · simpa [tacbotRequest] using hg
  · simp [tacbotRequest]
  · simpa [tacbotRequest] using hpid
  · norm_num [tacbotRequest]
  · norm_num [tacbotRequest]
  · norm_num [tacbotRequest]

theorem request_built_once_before_plan_witness :
    (tacbotSuccessEnv.groupName ≠ "" ∧ tacbotSuccessEnv.plannerId ≠ "" ∧
      tacbotSuccessEnv.promptResult = true) ∧
    planCalls (pickAndPlaceMain pnpSuccessEnv).2 = [pnpRequest] ∧
    planCalls (tacbotMain tacbotSuccessEnv).2 = [tacbotRequest tacbotSuccessEnv] ∧
    requestFullySpecified (tacbotRequest tacbotSuccessEnv) :=
  ⟨⟨by decide, by decide, rfl⟩,
   (request_built_once_before_plan pnpSuccessEnv tacbotSuccessEnv
      (by decide) (by decide) rfl).1,
   (request_built_once_before_plan pnpSuccessEnv tacbotSuccessEnv
      (by decide) (by decide) rfl).2.2.2.2.2.2.2.1,
   (request_built_once_before_plan pnpSuccessEnv tacbotSuccessEnv
      (by decide) (by decide) rfl).2.2.2.2.2.2.2.2⟩

/-- **C10.** Before each execution, the orchestrator queries the backend's
active and known controller lists purely for observability: `printControllers`
emits exactly the two query events and nothing else, the query precedes the
trajectory push in the success trace, and the queried lists influence neither
the exit code nor any event of the trace other than the logged observation
itself (so the query gates nothing and changes no state). -/
theorem controller_query_observational (env : PnpEnv) (a k : List String)
    (h : env.plannerCode = SUCCESS) :
    printControllers a k =
      [.queryActiveControllers a, .queryKnownControllers k] ∧
    (∃ pre post, (pickAndPlaceMain env).2 =
        pre ++ printControllers env.activeControllers env.knownControllers ++
        (.pushTrajectory env.plannerTrajectory :: post)) ∧
    (∀ a' k',
      (pickAndPlaceMain
        { env with activeControllers := a', knownControllers := k' }).1 =
        (pickAndPlaceMain env).1 ∧
      ((pickAndPlaceMain
          { env with activeControllers := a', knownControllers := k' }).2.map
        Event.scrubQuery) =
        ((pickAndPlaceMain env).2.map Event.scrubQuery)) := by
  refine ⟨rfl, ?_, ?_⟩
  · refine ⟨[.lockAcquire, .generatePlan pnpRequest, .lockRelease,
      .deleteAllMarkers,
      .publishDisplayTrajectory env.plannerStart [env.plannerTrajectory],
      .publishTrajectoryLine env.plannerTrajectory,
      .vizTrigger],
      [.executeAndWait [.pending, .running, env.backendOutcome.toStatus]
         env.backendOutcome.toStatus,
       .logStatus env.backendOutcome.toStatus,
       .promptInput], ?_⟩
    simp [pickAndPlaceMain, pnpGeneratePlan, h, printControllers,
      ExecutionCoordinator.executeAndWait, ExecutionCoordinator.execute]
  · intro a' k'
    constructor
    · by_cases hc : env.plannerCode ≠ SUCCESS <;>
        simp [pickAndPlaceMain, pnpGeneratePlan, hc]
    · by_cases hc : env.plannerCode ≠ SUCCESS <;>
        simp [pickAndPlaceMain, pnpGeneratePlan, printControllers, hc,
          Event.scrubQuery, ExecutionCoordinator.executeAndWait,
          ExecutionCoordinator.execute]

/-- **C5.** (spec-modelled: the analyzer's `evaluate`/pass computation is not
in the repository sources.)  Under the spec's default policy, `pass` is true
iff the smallest eigenvalue is at least the caller-supplied threshold (last
conjunct); and for every rank-1 Jacobian `J = u·wᵗ`, every eigendecomposition
of `M = J·Jᵗ` meeting the analyzer's contract (orthogonal `V`, ascending
eigenvalues, `V·diag(λ)·Vᵗ = M`) has its two smallest eigenvalues equal to
zero, so `pass` is false under every positive threshold. -/
theorem rank_one_jacobian_fails_pass {n : ℕ} (J : Matrix (Fin 3) (Fin n) ℚ)
    (u : Fin 3 → ℚ) (w : Fin n → ℚ)
    (hJ : ∀ i j, J i j = u i * w j)
    (lam : Fin 3 → ℚ) (V : Matrix (Fin 3) (Fin 3) ℚ)
    (horth : V.transpose * V = 1)
    (hsort : lam 0 ≤ lam 1 ∧ lam 1 ≤ lam 2)
    (hdecomp : V * Matrix.diagonal lam * V.transpose = J * J.transpose)
    (t : ℚ) (ht : 0 < t) :
    lam 0 = 0 ∧ lam 1 = 0 ∧ passPolicy lam t = false ∧
    (∀ (lam' : Fin 3 → ℚ) (τ : ℚ),
      (passPolicy lam' τ = true ↔ τ ≤ min (lam' 0) (min (lam' 1) (lam' 2)))) := by
  have hM : ∀ i k, (J * J.transpose) i k = (∑ p, w p ^ 2) * (u i * u k) := by
    intro i k
    rw [Matrix.mul_apply, Finset.sum_mul]
    refine Finset.sum_congr rfl fun j _ => ?_
    rw [Matrix.transpose_apply, hJ, hJ]
    ring
  have hD : Matrix.diagonal lam = V.transpose * (J * J.transpose) * V := by
    rw [← hdecomp]
    simp only [← Matrix.mul_assoc]
    rw [horth, Matrix.one_mul, Matrix.mul_assoc, horth, Matrix.mul_one]
  have hEntry : ∀ i j, Matrix.diagonal lam i j =
      (∑ p, w p ^ 2) * ((∑ k, V k i * u k) * (∑ k, V k j * u k)) := by
    intro i j
    rw [hD, Matrix.mul_apply]
    have inner : ∀ q, (V.transpose * (J * J.transpose)) i q =
        (∑ p, w p ^ 2) * u q * (∑ k, V k i * u k) := by
      intro q
      rw [Matrix.mul_apply, Finset.mul_sum]
      refine Finset.sum_congr rfl fun p _ => ?_
      rw [Matrix.transpose_apply, hM]
      ring
    simp only [inner]
    rw [Finset.mul_sum, Finset.mul_sum]
    refine Finset.sum_congr rfl fun q _ => ?_
    ring
  have hlam : ∀ i, lam i =
      (∑ p, w p ^ 2) * ((∑ k, V k i * u k) * (∑ k, V k i * u k)) := by
    intro i
    rw [← Matrix.diagonal_apply_eq lam i, hEntry i i]
  have hcnn : (0:ℚ) ≤ ∑ p, w p ^ 2 :=
    Finset.sum_nonneg fun j _ => sq_nonneg (w j)
  have hlnn : ∀ i, 0 ≤ lam i := by
    intro i
    rw [hlam i]
    exact mul_nonneg hcnn (mul_self_nonneg _)
  have e0 : (0:ℚ) =
      (∑ p, w p ^ 2) * ((∑ k, V k 1 * u k) * (∑ k, V k 2 * u k)) := by
    rw [← hEntry 1 2, Matrix.diagonal_apply_ne lam (by decide)]
  have h12 : lam 1 * lam 2 = 0 := by
    calc lam 1 * lam 2
        = ((∑ p, w p ^ 2) * ((∑ k, V k 1 * u k) * (∑ k, V k 2 * u k))) ^ 2 := by
          rw [hlam 1, hlam 2]; ring
      _ = 0 := by rw [← e0]; ring
  have hl1 : lam 1 = 0 := by
    rcases lt_or_eq_of_le (hlnn 1) with hpos | heq
    · exact absurd h12 (ne_of_gt (mul_pos hpos (lt_of_lt_of_le hpos hsort.2)))
    · exact heq.symm
  have hl0 : lam 0 = 0 := le_antisymm (hl1 ▸ hsort.1) (hlnn 0)
  have hmin : min (lam 0) (min (lam 1) (lam 2)) = 0 := by
    rw [hl0, hl1, min_eq_left (hlnn 2)]
    exact min_self 0
  refine ⟨hl0, hl1, ?_, ?_⟩
  · unfold passPolicy
    rw [hmin]
    exact decide_eq_false (not_le.mpr ht)
  · intro lam' τ
    simp [passPolicy]

theorem rank_one_jacobian_fails_pass_witness :
    (∀ i j, (!![(1:ℚ); 0; 0]) i j = ![(1:ℚ), 0, 0] i * ![(1:ℚ)] j) ∧
    ((!![(0:ℚ), 0, 1; 1, 0, 0; 0, 1, 0]).transpose *
      !![(0:ℚ), 0, 1; 1, 0, 0; 0, 1, 0] = 1) ∧
    (!![(0:ℚ), 0, 1; 1, 0, 0; 0, 1, 0] * Matrix.diagonal ![(0:ℚ), 0, 1] *
      (!![(0:ℚ), 0, 1; 1, 0, 0; 0, 1, 0]).transpose =
      !![(1:ℚ); 0; 0] * (!![(1:ℚ); 0; 0]).transpose) ∧
    (![(0:ℚ), 0, 1] 0 = 0 ∧ ![(0:ℚ), 0, 1] 1 = 0 ∧
      passPolicy ![(0:ℚ), 0, 1] 1 = false) := by
  have hJw : ∀ i j, (!![(1:ℚ); 0; 0]) i j = ![(1:ℚ), 0, 0] i * ![(1:ℚ)] j := by
    intro i j
    fin_cases i <;> fin_cases j <;>
      simp [Matrix.vecHead, Matrix.vecTail]
  have horthw : (!![(0:ℚ), 0, 1; 1, 0, 0; 0, 1, 0]).transpose *
      !![(0:ℚ), 0, 1; 1, 0, 0; 0, 1, 0] = 1 := by
    ext i j
    fin_cases i <;> fin_cases j <;>
      simp [Matrix.mul_apply, Matrix.one_apply, Fin.sum_univ_succ,
        Matrix.transpose_apply, Matrix.vecHead, Matrix.vecTail]
  have hdecompw : !![(0:ℚ), 0, 1; 1, 0, 0; 0, 1, 0] * Matrix.diagonal ![(0:ℚ), 0, 1] *
      (!![(0:ℚ), 0, 1; 1, 0, 0; 0, 1, 0]).transpose =
      !![(1:ℚ); 0; 0] * (!![(1:ℚ); 0; 0]).transpose := by
    ext i j
    fin_cases i <;> fin_cases j <;>
      simp [Matrix.mul_apply, Matrix.diagonal_apply, Fin.sum_univ_succ,
        Matrix.transpose_apply, Matrix.vecHead, Matrix.vecTail,
        Matrix.vecMul_diagonal]
  have h := rank_one_jacobian_fails_pass (n := 1) !![(1:ℚ); 0; 0]
    ![(1:ℚ), 0, 0] ![(1:ℚ)] hJw ![(0:ℚ), 0, 1]
    !![(0:ℚ), 0, 1; 1, 0, 0; 0, 1, 0] horthw (by norm_num) hdecompw
    1 (by norm_num)
  exact ⟨hJw, horthw, hdecompw, h.1, h.2.1, h.2.2.1⟩

/-- **C4.** (spec-modelled: the analyzer's `evaluate` is not in the
repository sources; its contract is the `EigenDecomp` structure.)  For every
symmetric positive-semidefinite 3×3 real matrix `M` there is an output
meeting the analyzer's contract: exactly 3 eigenvalues in ascending order
(index 0 most constrained), nonnegative, with unit-norm eigenvector columns
aligned with their eigenvalues, such that `V·diag(λ)·Vᵗ` reconstructs `M`
(exact real arithmetic standing in for floating-point tolerance). -/
theorem evaluate_eigendecomposition_exists (M : Matrix (Fin 3) (Fin 3) ℝ)
    (_hsym : M.transpose = M) (hpsd : M.PosSemidef) :
    Nonempty (EigenDecomp M) := by
  have hH : M.IsHermitian := hpsd.1
  obtain ⟨U, hU1, hrec, halign⟩ :
      ∃ U : Matrix (Fin 3) (Fin 3) ℝ,
        U.transpose * U = 1 ∧
        U * Matrix.diagonal hH.eigenvalues * U.transpose = M ∧
        ∀ j, M.mulVec (fun i => U i j) =
          hH.eigenvalues j • (fun i => U i j) := by
    refine ⟨((Matrix.IsHermitian.eigenvectorUnitary hH :
        Matrix.unitaryGroup (Fin 3) ℝ) : Matrix (Fin 3) (Fin 3) ℝ), ?_, ?_, ?_⟩
    · have h := Matrix.mem_unitaryGroup_iff'.mp
        (Matrix.IsHermitian.eigenvectorUnitary hH).2
      rwa [Matrix.star_eq_conjTranspose,
        Matrix.conjTranspose_eq_transpose_of_trivial] at h
    · conv_rhs => rw [Matrix.IsHermitian.spectral_theorem hH]
      rw [RCLike.ofReal_real_eq_id, Function.id_comp,
        Matrix.star_eq_conjTranspose, Matrix.conjTranspose_eq_transpose_of_trivial]
    · intro j
      have hb : (fun i => ((Matrix.IsHermitian.eigenvectorUnitary hH :
          Matrix.unitaryGroup (Fin 3) ℝ) : Matrix (Fin 3) (Fin 3) ℝ) i j) =
          ⇑(hH.eigenvectorBasis j) := by
        funext i
        exact Matrix.IsHermitian.eigenvectorUnitary_apply hH i j
      rw [hb]
      exact Matrix.IsHermitian.mulVec_eigenvectorBasis hH j
  refine ⟨⟨hH.eigenvalues ∘ ⇑(Tuple.sort hH.eigenvalues),
    U.submatrix id ⇑(Tuple.sort hH.eigenvalues), ?_, ?_, ?_, ?_, ?_⟩⟩
  · exact ⟨Tuple.monotone_sort hH.eigenvalues (by decide),
      Tuple.monotone_sort hH.eigenvalues (by decide)⟩
  · intro i
    exact hpsd.eigenvalues_nonneg _
  · intro j
    have h1 := (Matrix.ext_iff.2 hU1)
      (Tuple.sort hH.eigenvalues j) (Tuple.sort hH.eigenvalues j)
    rw [Matrix.mul_apply, Matrix.one_apply_eq] at h1
    calc (∑ i, (U.submatrix id ⇑(Tuple.sort hH.eigenvalues)) i j ^ 2)
        = ∑ k, U.transpose (Tuple.sort hH.eigenvalues j) k *
            U k (Tuple.sort hH.eigenvalues j) := by
          refine Finset.sum_congr rfl fun i _ => ?_
          simp [Matrix.submatrix_apply, Matrix.transpose_apply, pow_two]
      _ = 1 := h1
  · intro j
    have hcol : (fun i => (U.submatrix id ⇑(Tuple.sort hH.eigenvalues)) i j) =
        (fun i => U i (Tuple.sort hH.eigenvalues j)) := by
      funext i
      simp [Matrix.submatrix_apply]
    rw [hcol]
    exact halign (Tuple.sort hH.eigenvalues j)
  · rw [← Matrix.submatrix_diagonal_equiv, Matrix.transpose_submatrix,
      Matrix.submatrix_mul_equiv, Matrix.submatrix_mul_equiv, Matrix.submatrix_id_id]
    exact hrec

theorem evaluate_eigendecomposition_exists_witness :
    ((1 : Matrix (Fin 3) (Fin 3) ℝ).transpose = 1 ∧
      Matrix.PosSemidef (1 : Matrix (Fin 3) (Fin 3) ℝ)) ∧
    Nonempty (EigenDecomp (1 : Matrix (Fin 3) (Fin 3) ℝ)) :=
  ⟨⟨Matrix.transpose_one, Matrix.PosSemidef.one⟩,
   evaluate_eigendecomposition_exists 1 Matrix.transpose_one Matrix.PosSemidef.one⟩

theorem controller_query_observational_witness :
    pnpSuccessEnv.plannerCode = SUCCESS ∧
    (∃ pre post, (pickAndPlaceMain pnpSuccessEnv).2 =
        pre ++ printControllers pnpSuccessEnv.activeControllers
          pnpSuccessEnv.knownControllers ++
        (.pushTrajectory pnpSuccessEnv.plannerTrajectory :: post)) :=
  ⟨rfl, (controller_query_observational pnpSuccessEnv [] [] rfl).2.1⟩

end ActionWs
